import Mathlib

/-!
# Verification of the SeisComP inventory analyzer / editor core

A shallow embedding of the two Python sources
`seiscomp-inventory-analyzer.py` and `seiscomp-inventory-editor-gui.py`.

The XML document tree (`xml.etree.ElementTree`) is embedded as `XElem`:
a tag, an ordered attribute list (ElementTree stores attributes in a
dict, keys unique, insertion ordered), an optional text (ElementTree
gives `None` for an element with no text) and an ordered child list.
All element lookups in the sources use the single fixed namespace
`sc3`, so tags are modelled by their local names.

Python `None` is modelled by `Option.none`; strings are Lean `String`;
`float` values that the sources produce from decimal literals are
modelled exactly as rationals (`ℚ`) on the finite-decimal fragment of
Python's `float()` grammar.
-/

set_option maxHeartbeats 1000000

namespace SeisComp

/-- An ElementTree element: tag, attributes, text, children. -/
inductive XElem : Type where
  | mk : String → List (String × String) → Option String → List XElem → XElem

mutual
/-- Decidable equality of elements (the nested inductive prevents deriving). -/
def decEqXElem : (a b : XElem) → Decidable (a = b)
  | .mk t1 a1 x1 c1, .mk t2 a2 x2 c2 =>
    if h1 : t1 = t2 then
      if h2 : a1 = a2 then
        if h3 : x1 = x2 then
          match decEqListXElem c1 c2 with
          | isTrue h4 => isTrue (by rw [h1, h2, h3, h4])
          | isFalse h4 => isFalse (by intro hc; injection hc; contradiction)
        else isFalse (by intro hc; injection hc; contradiction)
      else isFalse (by intro hc; injection hc; contradiction)
    else isFalse (by intro hc; injection hc; contradiction)

/-- Decidable equality of element lists. -/
def decEqListXElem : (l1 l2 : List XElem) → Decidable (l1 = l2)
  | [], [] => isTrue rfl
  | [], _ :: _ => isFalse (by intro hc; cases hc)
  | _ :: _, [] => isFalse (by intro hc; cases hc)
  | a :: l1, b :: l2 =>
    match decEqXElem a b, decEqListXElem l1 l2 with
    | isTrue h1, isTrue h2 => isTrue (by rw [h1, h2])
    | isFalse h1, _ => isFalse (by intro hc; injection hc; contradiction)
    | _, isFalse h2 => isFalse (by intro hc; injection hc; contradiction)
end

instance : DecidableEq XElem := decEqXElem

/-- The element's tag (local name, namespace elided). -/
def XElem.tag : XElem → String
  | .mk t _ _ _ => t

/-- The element's attribute list (ElementTree attribute dict). -/
def XElem.attrs : XElem → List (String × String)
  | .mk _ a _ _ => a

/-- The element's text (`None` in Python is `none`). -/
def XElem.text : XElem → Option String
  | .mk _ _ x _ => x

/-- The element's direct children, in document order. -/
def XElem.children : XElem → List XElem
  | .mk _ _ _ c => c

/-- Replace the element's text, keeping everything else (`elem.text = v`). -/
def setText (e : XElem) (v : String) : XElem :=
  match e with
  | .mk t a _ c => .mk t a (some v) c

/-- Association-list lookup, first match wins (Python `dict` get). -/
def assocGet (k : String) : List (String × String) → Option String
  | [] => none
  | p :: ps => if p.1 = k then some p.2 else assocGet k ps

/-- Association-list update: replace the value at an existing key,
otherwise insert at the end (Python `dict` set). -/
def assocSet (k v : String) : List (String × String) → List (String × String)
  | [] => [(k, v)]
  | p :: ps => if p.1 = k then (k, v) :: ps else p :: assocSet k v ps

/-- Association-list delete (Python `del d[k]`, key assumed present or absent harmlessly). -/
def assocDel (k : String) : List (String × String) → List (String × String)
  | [] => []
  | p :: ps => if p.1 = k then assocDel k ps else p :: assocDel k ps

/-- Python `elem.get(k)`: attribute lookup returning `None` when absent. -/
def getAttr (e : XElem) (k : String) : Option String :=
  assocGet k e.attrs

/-- Python `elem.get(k, d)`: attribute lookup with a default. -/
def attrD (e : XElem) (k d : String) : String :=
  (getAttr e k).getD d

/-- First direct child carrying the given tag (`element.find('sc3:tag')`). -/
def findTag (t : String) : List XElem → Option XElem
  | [] => none
  | e :: es => if e.tag = t then some e else findTag t es

/-- All direct children carrying the given tag (`element.findall('sc3:tag')`). -/
def filterTag (t : String) : List XElem → List XElem
  | [] => []
  | e :: es => if e.tag = t then e :: filterTag t es else filterTag t es

/-- Remove the first direct child carrying the given tag (`element.remove(elem)`
where `elem` was obtained by `find`). -/
def removeFirst (t : String) : List XElem → List XElem
  | [] => []
  | e :: es => if e.tag = t then es else e :: removeFirst t es

/-- Set the text of the first direct child carrying the given tag. -/
def setFirstText (t v : String) : List XElem → List XElem
  | [] => []
  | e :: es => if e.tag = t then setText e v :: es else e :: setFirstText t v es

/-- Number of direct children carrying the given tag. -/
def countTag (t : String) : List XElem → Nat
  | [] => 0
  | e :: es => (if e.tag = t then 1 else 0) + countTag t es

mutual
/-- All descendants (strictly below the element) carrying the given tag, in
document order — the semantics of `element.findall('.//sc3:tag')`. -/
def descWithTag (t : String) : XElem → List XElem
  | .mk _ _ _ cs => descList t cs

/-- The function `descWithTag` mapped over a list of sibling elements. -/
def descList (t : String) : List XElem → List XElem
  | [] => []
  | c :: cs => (if c.tag = t then [c] else []) ++ descWithTag t c ++ descList t cs
end

/-! ## Python numeric conversions

`float(s)` is modelled on the finite-decimal fragment of its grammar:
optional surrounding whitespace, optional sign, a digit string with an
optional decimal point (at least one digit overall), and an optional
decimal exponent.  Values are exact rationals.  The special spellings
(`inf`, `nan`, digit underscores) are outside the model.  `str(int(x))`
(truncation toward zero, decimal rendering) is `pyIntStr (qtrunc x)`. -/

/-- Numeric value of a digit list, most significant first. -/
def digitsToNat (ds : List Char) : Nat :=
  ds.foldl (fun n c => 10 * n + (c.toNat - 48)) 0

/-- Parse the exponent part of a float literal (what follows `e`/`E`):
an optional sign then at least one digit, consuming the whole rest. -/
def parseExpPart (cs : List Char) : Option Int :=
  let sgn : Int := match cs with
    | '-' :: _ => -1
    | _ => 1
  let cs2 := match cs with
    | '+' :: r => r
    | '-' :: r => r
    | r => r
  let ds := cs2.takeWhile Char.isDigit
  let rest := cs2.dropWhile Char.isDigit
  if ds.isEmpty ∨ ¬ rest.isEmpty then none
  else some (sgn * (digitsToNat ds : Int))

/-- Parse the mantissa of a float literal: digits with an optional single
decimal point, at least one digit overall.  Returns the value and the
unconsumed rest. -/
def parseMantissa (cs : List Char) : Option (ℚ × List Char) :=
  let d1 := cs.takeWhile Char.isDigit
  let r1 := cs.dropWhile Char.isDigit
  match r1 with
  | '.' :: r2 =>
    let d2 := r2.takeWhile Char.isDigit
    let r3 := r2.dropWhile Char.isDigit
    if d1.isEmpty ∧ d2.isEmpty then none
    else some ((digitsToNat (d1 ++ d2) : ℚ) / (10 : ℚ) ^ d2.length, r3)
  | _ => if d1.isEmpty then none else some ((digitsToNat d1 : ℚ), r1)

/-- Parse an unsigned float literal: mantissa and optional exponent. -/
def parseUnsignedFloat (cs : List Char) : Option ℚ :=
  match parseMantissa cs with
  | none => none
  | some (m, rest) =>
    match rest with
    | [] => some m
    | 'e' :: r => (parseExpPart r).map (fun ex => m * (10 : ℚ) ^ ex)
    | 'E' :: r => (parseExpPart r).map (fun ex => m * (10 : ℚ) ^ ex)
    | _ => none

/-- Whitespace accepted around a Python float literal. -/
def isPySpace (c : Char) : Bool :=
  c = ' ' ∨ c = '\t' ∨ c = '\n' ∨ c = '\r'

/-- Python `float(s)` on the finite-decimal fragment: `none` models `ValueError`. -/
def parsePyFloat (s : String) : Option ℚ :=
  let cs := ((s.data.dropWhile isPySpace).reverse.dropWhile isPySpace).reverse
  match cs with
  | '+' :: r => parseUnsignedFloat r
  | '-' :: r => (parseUnsignedFloat r).map Neg.neg
  | r => parseUnsignedFloat r

/-- Python `int(x)` on a finite float value: truncation toward zero. -/
def qtrunc (q : ℚ) : Int :=
  Int.tdiv q.num (q.den : Int)

/-- Decimal digit rendering of a natural number (fuelled, fuel `n + 1`
is always sufficient since `n / 10 < n` for `n ≥ 10`). -/
def natStrCore : Nat → Nat → List Char
  | 0, _ => []
  | fuel + 1, n =>
    if n < 10 then [Char.ofNat (48 + n)]
    else natStrCore fuel (n / 10) ++ [Char.ofNat (48 + n % 10)]

/-- Python `str` of a natural number. -/
def natStr (n : Nat) : String :=
  ⟨natStrCore (n + 1) n⟩

/-- Python `str` of an `int`: decimal digits with a leading `-` when negative. -/
def pyIntStr (i : Int) : String :=
  if i < 0 then "-" ++ natStr i.natAbs else natStr i.natAbs

theorem natStrCore_ne_nil (fuel n : Nat) : natStrCore (fuel + 1) n ≠ [] := by
  unfold natStrCore
  split
  · simp
  · simp

theorem natStr_ne_empty (n : Nat) : natStr n ≠ "" := by
  have h := natStrCore_ne_nil n n
  intro hc
  apply h
  have : (⟨natStrCore (n + 1) n⟩ : String).data = ("" : String).data := by
    rw [show (⟨natStrCore (n + 1) n⟩ : String) = natStr n from rfl, hc]
  simpa using this

theorem pyIntStr_ne_empty (i : Int) : pyIntStr i ≠ "" := by
  unfold pyIntStr
  split
  · intro hc
    have : ("-" ++ natStr i.natAbs).data = ("" : String).data := by rw [hc]
    simp [String.data_append] at this
  · exact natStr_ne_empty _

/-! ## Analyzer (`seiscomp-inventory-analyzer.py`)

`UnifiedSeisCompAnalyzer`: lookup tables built from the `Inventory`
element, then one resolved record per stream.  `_get_element_text`
returns `elem.text` (possibly `None`) for a present element and `None`
for an absent one — both are `none` here. -/

/-- Method `_get_element_text(element, tag)` of the analyzer: text of the first
direct child with the tag, `None` when the child is absent or textless. -/
def get_element_text (e : XElem) (t : String) : Option String :=
  (findTag t e.children).bind XElem.text

/-- One entry of `sensor_lookup` (keys prefixed `sensor_` in the source). -/
structure SensorInfo where
  sensor_name : String
  sensor_description : Option String
  sensor_manufacturer : Option String
  sensor_model : Option String
  sensor_type : Option String
  sensor_unit : Option String
  sensor_response : String
  sensor_remark : Option String
  sensor_serial_number_equipment : Option String
deriving DecidableEq

/-- One decimation entry of a datalogger. -/
structure Decimation where
  sampleRateNumerator : Option String
  sampleRateDenominator : Option String
  analogueFilterChain : Option String
  digitalFilterChain : Option String
deriving DecidableEq

/-- One entry of `datalogger_lookup`. -/
structure DataloggerInfo where
  datalogger_name : String
  datalogger_description : Option String
  datalogger_manufacturer : Option String
  datalogger_model : Option String
  datalogger_type : Option String
  datalogger_remark : Option String
  datalogger_serial_number_equipment : Option String
  decimations : List Decimation
deriving DecidableEq

/-- One entry of `response_lookup`. -/
structure ResponseInfo where
  response_name : String
  response_gain : Option String
  response_frequency : Option String
  response_gainFrequency : Option String
deriving DecidableEq

/-- One entry of `paz_lookup`. -/
structure PazInfo where
  paz_type : Option String
  paz_gain : Option String
  paz_gainFrequency : Option String
  paz_normalizationFactor : Option String
  paz_normalizationFrequency : Option String
  paz_numberOfPoles : Option String
  paz_numberOfZeros : Option String
deriving DecidableEq

/-- A lookup table keyed by `publicID` (`None` when the attribute is
absent, as in the Python `dict`). -/
def Lookup (α : Type) : Type := List (Option String × α)

/-- Dictionary lookup with the source's last-write-wins insertion order:
the latest binding of a key is the visible one. -/
def lookupPub {α : Type} (l : Lookup α) (k : Option String) : Option α :=
  (l.reverse.find? (fun p => p.1 = k)).map Prod.snd

/-- Method `_build_lookup_tables`, sensor part: every `.//sc3:sensor` descendant. -/
def build_sensor_lookup (inv : XElem) : Lookup SensorInfo :=
  (descWithTag "sensor" inv).map (fun s =>
    (getAttr s "publicID",
      { sensor_name := attrD s "name" ""
        sensor_description := get_element_text s "description"
        sensor_manufacturer := get_element_text s "manufacturer"
        sensor_model := get_element_text s "model"
        sensor_type := get_element_text s "type"
        sensor_unit := get_element_text s "unit"
        sensor_response := attrD s "response" ""
        sensor_remark := get_element_text s "remark"
        sensor_serial_number_equipment := get_element_text s "serialNumber" }))

/-- Method `_build_lookup_tables`, datalogger part, including the decimation list
(every `.//sc3:decimation` descendant, in document order). -/
def build_datalogger_lookup (inv : XElem) : Lookup DataloggerInfo :=
  (descWithTag "datalogger" inv).map (fun d =>
    (getAttr d "publicID",
      { datalogger_name := attrD d "name" ""
        datalogger_description := get_element_text d "description"
        datalogger_manufacturer := get_element_text d "manufacturer"
        datalogger_model := get_element_text d "model"
        datalogger_type := get_element_text d "type"
        datalogger_remark := get_element_text d "remark"
        datalogger_serial_number_equipment := get_element_text d "serialNumber"
        decimations := (descWithTag "decimation" d).map (fun dec =>
          { sampleRateNumerator := get_element_text dec "sampleRateNumerator"
            sampleRateDenominator := get_element_text dec "sampleRateDenominator"
            analogueFilterChain := get_element_text dec "analogueFilterChain"
            digitalFilterChain := get_element_text dec "digitalFilterChain" }) }))

/-- Method `_build_lookup_tables`, response part. -/
def build_response_lookup (inv : XElem) : Lookup ResponseInfo :=
  (descWithTag "response" inv).map (fun r =>
    (getAttr r "publicID",
      { response_name := attrD r "name" ""
        response_gain := get_element_text r "gain"
        response_frequency := get_element_text r "frequency"
        response_gainFrequency := get_element_text r "gainFrequency" }))

/-- Method `_build_lookup_tables`, responsePAZ part. -/
def build_paz_lookup (inv : XElem) : Lookup PazInfo :=
  (descWithTag "responsePAZ" inv).map (fun p =>
    (getAttr p "publicID",
      { paz_type := get_element_text p "type"
        paz_gain := get_element_text p "gain"
        paz_gainFrequency := get_element_text p "gainFrequency"
        paz_normalizationFactor := get_element_text p "normalizationFactor"
        paz_normalizationFrequency := get_element_text p "normalizationFrequency"
        paz_numberOfPoles := get_element_text p "numberOfPoles"
        paz_numberOfZeros := get_element_text p "numberOfZeros" }))

/-- JSON rendering of an optional string, assuming the inventory strings
contain no characters needing JSON escapes (`json.dumps` would escape). -/
def jsonStr (o : Option String) : String :=
  match o with
  | none => "null"
  | some s => "\"" ++ s ++ "\""

/-- Python `json.dumps` of one decimation dict, Python default separators. -/
def jsonDecimation (d : Decimation) : String :=
  "\x7b\"sampleRateNumerator\": " ++ jsonStr d.sampleRateNumerator ++
  ", \"sampleRateDenominator\": " ++ jsonStr d.sampleRateDenominator ++
  ", \"analogueFilterChain\": " ++ jsonStr d.analogueFilterChain ++
  ", \"digitalFilterChain\": " ++ jsonStr d.digitalFilterChain ++ "\x7d"

/-- Python `json.dumps` of the decimation list. -/
def jsonDecimations (ds : List Decimation) : String :=
  "[" ++ String.intercalate ", " (ds.map jsonDecimation) ++ "]"

/-- One entry of `unified_data`: the fields of `stream_data` in source
order, with the merged sensor/datalogger information kept as nested
optional records (their key sets are disjoint from the stream-level
keys, so the flat dict merge of the source is captured exactly). -/
structure StreamData where
  network : String
  network_start : Option String
  network_end : Option String
  station : String
  station_start : Option String
  station_end : Option String
  location : String
  latitude : Option String
  longitude : Option String
  elevation : Option String
  channel : String
  stream_start : Option String
  stream_end : Option String
  depth : Option String
  azimuth : Option String
  dip : Option String
  gain : Option String
  gainFrequency : Option String
  gainUnit : Option String
  format : Option String
  flags : Option String
  restricted : Option String
  shared : Option String
  sensor_serial_number_stream : Option String
  datalogger_serial_number_stream : Option String
  sensorChannel : Option String
  dataloggerChannel : Option String
  clockSerialNumber : Option String
  sampleRateNumerator : Option String
  sampleRateDenominator : Option String
  clockDrift : Option String
  clockModel : Option String
  sensorInfo : Option SensorInfo
  dataloggerInfo : Option DataloggerInfo
  decimation_info : Option String
  stream_comments : Option String
deriving DecidableEq

/-- The body of `_process_stream`: build one resolved record.  Every
operation in the source's `try` block is total (texts are carried as
raw strings, never numerically parsed), which this totality makes
explicit. -/
def resolve_stream_record (nc : String) (ns ne : Option String)
    (sc : String) (ss se : Option String)
    (lc : String) (la lo el : Option String)
    (sL : Lookup SensorInfo) (dL : Lookup DataloggerInfo)
    (stream : XElem) : StreamData :=
  let si := lookupPub sL (getAttr stream "sensor")
  let di := lookupPub dL (getAttr stream "datalogger")
  let comments := (descWithTag "comment" stream).filterMap (fun c =>
    match get_element_text c "text" with
    | some s => if s = "" then none else some s
    | none => none)
  { network := nc
    network_start := ns
    network_end := ne
    station := sc
    station_start := ss
    station_end := se
    location := lc
    latitude := la
    longitude := lo
    elevation := el
    channel := attrD stream "code" ""
    stream_start := get_element_text stream "start"
    stream_end := get_element_text stream "end"
    depth := get_element_text stream "depth"
    azimuth := get_element_text stream "azimuth"
    dip := get_element_text stream "dip"
    gain := get_element_text stream "gain"
    gainFrequency := get_element_text stream "gainFrequency"
    gainUnit := get_element_text stream "gainUnit"
    format := get_element_text stream "format"
    flags := get_element_text stream "flags"
    restricted := get_element_text stream "restricted"
    shared := get_element_text stream "shared"
    sensor_serial_number_stream := get_element_text stream "sensorSerialNumber"
    datalogger_serial_number_stream := get_element_text stream "dataloggerSerialNumber"
    sensorChannel := get_element_text stream "sensorChannel"
    dataloggerChannel := get_element_text stream "dataloggerChannel"
    clockSerialNumber := get_element_text stream "clockSerialNumber"
    sampleRateNumerator := get_element_text stream "sampleRateNumerator"
    sampleRateDenominator := get_element_text stream "sampleRateDenominator"
    clockDrift := get_element_text stream "clockDrift"
    clockModel := get_element_text stream "clockModel"
    sensorInfo := si
    dataloggerInfo := di
    decimation_info := di.bind (fun d =>
      if d.decimations.isEmpty then none else some (jsonDecimations d.decimations))
    stream_comments :=
      if comments.isEmpty then none else some (String.intercalate "; " comments) }

/-- Method `_process_stream` with its `try`/`except`: the body is total, so the
result is always a record and an empty error report. -/
def process_stream (nc : String) (ns ne : Option String)
    (sc : String) (ss se : Option String)
    (lc : String) (la lo el : Option String)
    (sL : Lookup SensorInfo) (dL : Lookup DataloggerInfo)
    (stream : XElem) : Option StreamData × List String :=
  (some (resolve_stream_record nc ns ne sc ss se lc la lo el sL dL stream), [])

/-- Method `_process_location`: direct `sc3:stream` children, in document order. -/
def process_location (nc : String) (ns ne : Option String)
    (sc : String) (ss se : Option String)
    (sL : Lookup SensorInfo) (dL : Lookup DataloggerInfo)
    (location : XElem) : List (Option StreamData × List String) :=
  let lc := attrD location "code" ""
  let la := get_element_text location "latitude"
  let lo := get_element_text location "longitude"
  let el := get_element_text location "elevation"
  (filterTag "stream" location.children).map
    (process_stream nc ns ne sc ss se lc la lo el sL dL)

/-- Method `_process_station`: every `.//sc3:sensorLocation` descendant. -/
def process_station (nc : String) (ns ne : Option String)
    (sL : Lookup SensorInfo) (dL : Lookup DataloggerInfo)
    (station : XElem) : List (Option StreamData × List String) :=
  let sc := attrD station "code" ""
  let ss := get_element_text station "start"
  let se := get_element_text station "end"
  (descWithTag "sensorLocation" station).flatMap
    (process_location nc ns ne sc ss se sL dL)

/-- Method `_process_networks`: every `.//sc3:network` descendant of the
inventory, then every `.//sc3:station` descendant of the network. -/
def process_networks (inv : XElem)
    (sL : Lookup SensorInfo) (dL : Lookup DataloggerInfo) :
    List (Option StreamData × List String) :=
  (descWithTag "network" inv).flatMap (fun nw =>
    let nc := attrD nw "code" ""
    let ns := get_element_text nw "start"
    let ne := get_element_text nw "end"
    (descWithTag "station" nw).flatMap (process_station nc ns ne sL dL))

/-- The `unified_data` list accumulated by one resolution pass. -/
def unified_data (inv : XElem)
    (sL : Lookup SensorInfo) (dL : Lookup DataloggerInfo) : List StreamData :=
  (process_networks inv sL dL).filterMap Prod.fst

/-- The per-stream error reports printed during one resolution pass. -/
def stream_errors (inv : XElem)
    (sL : Lookup SensorInfo) (dL : Lookup DataloggerInfo) : List String :=
  (process_networks inv sL dL).flatMap Prod.snd

/-- The analyzer's state after `parse_inventory`. -/
structure AState where
  sensor_lookup : Lookup SensorInfo
  datalogger_lookup : Lookup DataloggerInfo
  response_lookup : Lookup ResponseInfo
  paz_lookup : Lookup PazInfo
  unified : List StreamData

/-- The state before any parse: all lookups and the record list empty. -/
def emptyAState : AState :=
  ⟨[], [], [], [], []⟩

/-- The `try` body of `parse_inventory`: raises (`Except.error`) when the
root has no direct `Inventory` child, otherwise builds the lookups and
runs the resolution pass. -/
def parse_inventory_body (root : XElem) : Except String AState :=
  match findTag "Inventory" root.children with
  | none => Except.error "No Inventory element found in XML"
  | some inv =>
    Except.ok
      ⟨build_sensor_lookup inv, build_datalogger_lookup inv,
        build_response_lookup inv, build_paz_lookup inv,
        unified_data inv (build_sensor_lookup inv) (build_datalogger_lookup inv)⟩

/-- Method `parse_inventory`: the method catches every exception of its body and
prints it (`except Exception as e: print(...)`), so the caller always
receives a normal return — the final state together with the printed
error reports. -/
def parse_inventory (root : XElem) : AState × List String :=
  match findTag "Inventory" root.children with
  | none =>
    (emptyAState, ["Error parsing inventory: No Inventory element found in XML"])
  | some inv =>
    let sL := build_sensor_lookup inv
    let dL := build_datalogger_lookup inv
    (⟨sL, dL, build_response_lookup inv, build_paz_lookup inv, unified_data inv sL dL⟩,
      stream_errors inv sL dL)

/-! ## Record projection (`export_to_csv`)

The DataFrame step: `df.replace(\x7bNone: '', '': ''\x7d)` maps both a
Python `None` value and a missing key (NaN) to the empty string, then
the two serial-number columns are coalesced with Python `or` and the
four intermediate columns are dropped. -/

/-- The step `df.replace(\x7bNone: ''\x7d)` on one cell: absent becomes empty. -/
def blank (o : Option String) : String :=
  o.getD ""

/-- Python `a or b` on strings: `a` unless it is empty (falsy). -/
def pyOr (a b : String) : String :=
  if a = "" then b else a

/-- The coalesced `sensor_serial_number` column of one record. -/
def sensor_serial_number (r : StreamData) : String :=
  pyOr (blank r.sensor_serial_number_stream)
    (blank (r.sensorInfo.bind SensorInfo.sensor_serial_number_equipment))

/-- The coalesced `datalogger_serial_number` column of one record. -/
def datalogger_serial_number (r : StreamData) : String :=
  pyOr (blank r.datalogger_serial_number_stream)
    (blank (r.dataloggerInfo.bind DataloggerInfo.datalogger_serial_number_equipment))

/-- The column names contributed by `stream_data`, in source key order. -/
def stream_columns : List String :=
  ["network", "network_start", "network_end", "station", "station_start",
   "station_end", "location", "latitude", "longitude", "elevation", "channel",
   "stream_start", "stream_end", "depth", "azimuth", "dip", "gain",
   "gainFrequency", "gainUnit", "format", "flags", "restricted", "shared",
   "sensor_serial_number_stream", "datalogger_serial_number_stream",
   "sensorChannel", "dataloggerChannel", "clockSerialNumber",
   "sampleRateNumerator", "sampleRateDenominator", "clockDrift", "clockModel"]

/-- The column names contributed by a merged sensor record. -/
def sensor_columns : List String :=
  ["sensor_name", "sensor_description", "sensor_manufacturer", "sensor_model",
   "sensor_type", "sensor_unit", "sensor_response", "sensor_remark",
   "sensor_serial_number_equipment"]

/-- The column names contributed by a merged datalogger record. -/
def datalogger_columns : List String :=
  ["datalogger_name", "datalogger_description", "datalogger_manufacturer",
   "datalogger_model", "datalogger_type", "datalogger_remark",
   "datalogger_serial_number_equipment"]

/-- All columns of the unified DataFrame before coalescing. -/
def all_columns : List String :=
  stream_columns ++ sensor_columns ++ datalogger_columns ++
    ["decimation_info", "stream_comments"]

/-- The four intermediate serial-number columns dropped by `export_to_csv`. -/
def dropped_columns : List String :=
  ["sensor_serial_number_stream", "sensor_serial_number_equipment",
   "datalogger_serial_number_stream", "datalogger_serial_number_equipment"]

/-- The column set of the exported CSV: the source columns plus the two
coalesced columns, minus the four intermediate ones. -/
def exported_columns : List String :=
  (all_columns ++ ["sensor_serial_number", "datalogger_serial_number"]).filter
    (fun c => ¬ dropped_columns.contains c)

/-! ## Editor (`seiscomp-inventory-editor-gui.py`)

The mutation engine operates on a single `XElem` node.  Field values
come from the form's line edits; the visual validators only restyle the
widgets and never block a commit, so every string can reach the update
methods. -/

/-- Method `_update_element_text(element, tag, value)`, child-list part: a
non-empty value sets the text of the first child with the tag, creating
(appending) the child when absent; an empty value removes the first
child with the tag and is a no-op when it is absent. -/
def updC (t v : String) (l : List XElem) : List XElem :=
  if v = "" then removeFirst t l
  else
    match findTag t l with
    | some _ => setFirstText t v l
    | none => l ++ [XElem.mk t [] (some v) []]

/-- Method `_update_element_text` on the node. -/
def update_element_text (e : XElem) (t v : String) : XElem :=
  XElem.mk e.tag e.attrs e.text (updC t v e.children)

/-- The station form's field values. -/
structure StationFields where
  code : String
  name : String
  description : String
  latitude : String
  longitude : String
  elevation : String
deriving DecidableEq

/-- Method `update_station`: the `code` attribute is only assigned when
non-empty; the `name` attribute is assigned when non-empty and deleted
when empty and present; the child-element texts follow
`_update_element_text`. -/
def update_station (e : XElem) (f : StationFields) : XElem :=
  let a1 := if f.code ≠ "" then assocSet "code" f.code e.attrs else e.attrs
  let a2 :=
    if f.name ≠ "" then assocSet "name" f.name a1
    else if (assocGet "name" a1).isSome then assocDel "name" a1 else a1
  let c1 := updC "description" f.description e.children
  let c2 := updC "latitude" f.latitude c1
  let c3 := updC "longitude" f.longitude c2
  let c4 := updC "elevation" f.elevation c3
  XElem.mk e.tag a2 e.text c4

/-- The stream form's field values. -/
structure StreamFields where
  code : String
  start : String
  stop : String
  depth : String
  azimuth : String
  dip : String
  gain : String
  sampleRate : String
  gainFrequency : String
  gainUnit : String
  dataloggerSerialNumber : String
  sensorSerialNumber : String
  flags : String
deriving DecidableEq

/-- The (tag, value) pairs committed by `update_stream`, in source order.
The sample-rate text is converted by `float`; on success the numerator
is written as `str(int(rate))` and the denominator as `"1"`, on
`ValueError` both writes are skipped (`except ...: pass`). -/
def streamPairs (f : StreamFields) : List (String × String) :=
  [("start", f.start), ("end", f.stop), ("depth", f.depth),
   ("azimuth", f.azimuth), ("dip", f.dip), ("gain", f.gain)] ++
  (match parsePyFloat f.sampleRate with
   | some r => [("sampleRateNumerator", pyIntStr (qtrunc r)),
                ("sampleRateDenominator", "1")]
   | none => []) ++
  [("gainFrequency", f.gainFrequency), ("gainUnit", f.gainUnit),
   ("dataloggerSerialNumber", f.dataloggerSerialNumber),
   ("sensorSerialNumber", f.sensorSerialNumber), ("flags", f.flags)]

/-- Apply a list of `_update_element_text` commits in order. -/
def applyUpds (ps : List (String × String)) (l : List XElem) : List XElem :=
  ps.foldl (fun acc p => updC p.1 p.2 acc) l

/-- Method `update_stream`: the `code` attribute is assigned unconditionally
(`self.current_element.set('code', ...)`), then the element texts are
committed in source order. -/
def update_stream (e : XElem) (f : StreamFields) : XElem :=
  XElem.mk e.tag (assocSet "code" f.code e.attrs) e.text
    (applyUpds (streamPairs f) e.children)

/-- Method `_get_element_text(element, tag, default)` of the editor: the text of
a present child (possibly `None`), the default when absent. -/
def get_element_text_d (e : XElem) (t d : String) : Option String :=
  match findTag t e.children with
  | none => some d
  | some el => el.text

/-- The Python exceptions distinguished by `populate_stream_fields`. -/
inductive PyExc where
  | valueError
  | typeError
  | zeroDivisionError
deriving DecidableEq

/-- Python `float(x)` applied to an optional string: `None` raises `TypeError`,
an unparsable string raises `ValueError`. -/
def pyFloatConv (o : Option String) : Except PyExc ℚ :=
  match o with
  | none => Except.error PyExc.typeError
  | some s =>
    match parsePyFloat s with
    | some q => Except.ok q
    | none => Except.error PyExc.valueError

/-- The derived sample-rate display of `populate_stream_fields`:
`float(numerator) / float(denominator)` with defaults `'0'` / `'1'`,
`ValueError` and `ZeroDivisionError` caught (empty display, `.ok none`);
any other exception propagates to the caller (`.error`). -/
def displayed_sample_rate (stream : XElem) : Except PyExc (Option ℚ) :=
  match pyFloatConv (get_element_text_d stream "sampleRateNumerator" "0") with
  | Except.error PyExc.valueError => Except.ok none
  | Except.error e => Except.error e
  | Except.ok n =>
    match pyFloatConv (get_element_text_d stream "sampleRateDenominator" "1") with
    | Except.error PyExc.valueError => Except.ok none
    | Except.error e => Except.error e
    | Except.ok d => if d = 0 then Except.ok none else Except.ok (some (n / d))

/-! ## Save (`save_xml`)

The filesystem is an association list from file names to contents;
`Path.rename` moves a file (failing when the source is absent) and
`tree.write` either writes the serialized tree or fails, possibly
leaving partial bytes behind.  `Path.with_suffix('.xml.bak')` replaces
the final dot-suffix of the name (names without a dot get the suffix
appended). -/

/-- Render an attribute list as XML source text. -/
def renderAttrs : List (String × String) → String
  | [] => ""
  | (k, v) :: ps => " " ++ k ++ "=\"" ++ v ++ "\"" ++ renderAttrs ps

mutual
/-- Serialize an element (the content `tree.write` produces for it). -/
def renderElem : XElem → String
  | .mk t a txt cs =>
    "<" ++ t ++ renderAttrs a ++ ">" ++ txt.getD "" ++ renderList cs ++ "</" ++ t ++ ">"

/-- Serialize a list of sibling elements. -/
def renderList : List XElem → String
  | [] => ""
  | c :: cs => renderElem c ++ renderList cs
end

/-- Python `Path(name).with_suffix('.xml.bak')`: drop the final dot-suffix if
any, then append `.xml.bak`. -/
def backupName (n : String) : String :=
  let rev := n.data.reverse
  let stem :=
    if rev.contains '.' then ((rev.dropWhile (fun c => c ≠ '.')).drop 1).reverse
    else n.data
  ⟨stem⟩ ++ ".xml.bak"

/-- A filesystem: file names mapped to contents. -/
def FS : Type := List (String × String)

/-- The editor session state relevant to saving: the loaded file name,
the in-memory tree, and the dirty flag (`unsaved_changes`). -/
structure EditorSession where
  current_file : Option String
  tree : Option XElem
  unsaved_changes : Bool
deriving DecidableEq

/-- Python `Path.rename`: fails (`none`) when the source name is absent,
otherwise moves the content (replacing any file at the target). -/
def fsRename (fs : FS) (a b : String) : Option FS :=
  match assocGet a fs with
  | none => none
  | some c => some (assocSet b c (assocDel a fs))

/-- Method `save_xml`: rename the current file to its backup name, then write
the tree.  `writeOk = false` simulates a write failure that leaves
`partialContent` at the target; the handler then restores the backup to
the original name when it exists.  `unsaved_changes` is cleared only on
the successful path. -/
def save_xml (fs : FS) (sess : EditorSession)
    (writeOk : Bool) (partialContent : String) : FS × EditorSession :=
  match sess.current_file, sess.tree with
  | some f, some doc =>
    let b := backupName f
    (match fsRename fs f b with
     | none =>
       -- the initial rename raised; the handler finds no fresh backup
       (if (assocGet b fs).isSome then (fsRename fs b f).getD fs else fs, sess)
     | some fs1 =>
       if writeOk then
         (assocSet f (renderElem doc) fs1,
           { sess with unsaved_changes := false })
       else
         let fs2 := assocSet f partialContent fs1
         (if (assocGet b fs2).isSome then (fsRename fs2 b f).getD fs2 else fs2,
           sess))
  | _, _ => (fs, sess)

/-! ## Hierarchy walker, specification side

The spec enumerates streams as: every network child of the inventory,
every station child of the network, every sensor-location child of the
station, every stream child of the location — all direct children, in
document order.  The analyzer instead uses descendant searches (`.//`);
a valid document has the four levels properly nested, which the
decidable `validHierarchy` captures: no network strictly below the
inventory's children, no station strictly below a network's children,
no sensor location strictly below a station's children. -/

/-- No element with the given tag occurs at depth two or more below `e`. -/
def noDeepTagB (t : String) (e : XElem) : Bool :=
  e.children.all (fun c => (descWithTag t c).isEmpty)

/-- Document validity for the four-level hierarchy of the spec. -/
def validHierarchy (inv : XElem) : Bool :=
  noDeepTagB "network" inv &&
  (filterTag "network" inv.children).all (fun nw =>
    noDeepTagB "station" nw &&
    (filterTag "station" nw.children).all (fun st => noDeepTagB "sensorLocation" st))

/-- Spec-side enumeration: the stream elements that are direct children
of a sensor location, in document order. -/
def spec_stream_elements (inv : XElem) : List XElem :=
  (filterTag "network" inv.children).flatMap (fun nw =>
    (filterTag "station" nw.children).flatMap (fun st =>
      (filterTag "sensorLocation" st.children).flatMap (fun loc =>
        filterTag "stream" loc.children)))

/-- Spec-side resolution: one record per enumerated stream, carrying the
ancestor context down, in document order. -/
def spec_walker_records (inv : XElem)
    (sL : Lookup SensorInfo) (dL : Lookup DataloggerInfo) : List StreamData :=
  (filterTag "network" inv.children).flatMap (fun nw =>
    (filterTag "station" nw.children).flatMap (fun st =>
      (filterTag "sensorLocation" st.children).flatMap (fun loc =>
        (filterTag "stream" loc.children).map
          (resolve_stream_record
            (attrD nw "code" "") (get_element_text nw "start") (get_element_text nw "end")
            (attrD st "code" "") (get_element_text st "start") (get_element_text st "end")
            (attrD loc "code" "") (get_element_text loc "latitude")
            (get_element_text loc "longitude") (get_element_text loc "elevation")
            sL dL))))

/-! ### List infrastructure -/

theorem descWithTag_children (t : String) (e : XElem) :
    descWithTag t e = descList t e.children := by
  cases e with
  | mk t' a x cs => simp [descWithTag, XElem.children]

theorem descList_eq_filterTag {t : String} {cs : List XElem}
    (h : ∀ c ∈ cs, descWithTag t c = []) : descList t cs = filterTag t cs := by
  induction cs with
  | nil => simp [descList, filterTag]
  | cons c cs ih =>
    have hc := h c (by simp)
    have hcs : ∀ x ∈ cs, descWithTag t x = [] := fun x hx => h x (by simp [hx])
    by_cases ht : c.tag = t <;> simp [descList, filterTag, hc, ht, ih hcs]

theorem descWithTag_eq_filterTag {t : String} {e : XElem}
    (h : noDeepTagB t e = true) : descWithTag t e = filterTag t e.children := by
  rw [descWithTag_children]
  apply descList_eq_filterTag
  intro c hc
  have := (List.all_eq_true.mp h) c hc
  simpa [List.isEmpty_iff] using this

theorem filterMap_flatMap_my {α β γ : Type} (l : List α) (g : α → List β)
    (f : β → Option γ) :
    (l.flatMap g).filterMap f = l.flatMap (fun x => (g x).filterMap f) := by
  induction l with
  | nil => simp
  | cons a l ih => simp [List.flatMap_cons, List.filterMap_append, ih]

theorem flatMap_congr_mem {α β : Type} {l : List α} {f g : α → List β}
    (h : ∀ x ∈ l, f x = g x) : l.flatMap f = l.flatMap g := by
  induction l with
  | nil => simp
  | cons a l ih =>
    simp only [List.flatMap_cons, h a (by simp)]
    rw [ih (fun x hx => h x (by simp [hx]))]

theorem filterMap_fst_mk {α β : Type} (l : List α) (h : α → β) :
    (l.map (fun s => (some (h s), ([] : List String)))).filterMap Prod.fst
      = l.map h := by
  induction l with
  | nil => simp
  | cons a l ih => simp [ih]

theorem length_flatMap_congr {α β γ : Type} {l : List α} {f : α → List β}
    {g : α → List γ} (h : ∀ x ∈ l, (f x).length = (g x).length) :
    (l.flatMap f).length = (l.flatMap g).length := by
  induction l with
  | nil => simp
  | cons a l ih =>
    simp only [List.flatMap_cons, List.length_append, h a (by simp)]
    rw [ih (fun x hx => h x (by simp [hx]))]

theorem spec_walker_records_length (inv : XElem)
    (sL : Lookup SensorInfo) (dL : Lookup DataloggerInfo) :
    (spec_walker_records inv sL dL).length = (spec_stream_elements inv).length := by
  unfold spec_walker_records spec_stream_elements
  apply length_flatMap_congr
  intro nw _
  apply length_flatMap_congr
  intro st _
  apply length_flatMap_congr
  intro loc _
  exact List.length_map _ _

/-! ## Claim C1 -/

/-- C1: for every valid input document, parsing produces exactly one
resolved stream record per `<stream>` element that is a direct child of
a sensorLocation, and the records appear in `unified_data` in document
order (networks, then stations, then locations, then streams, each in
document order): the resolution pass equals the spec-side walk over
direct children, and its length is the number of such stream elements. -/
theorem c1_one_record_per_stream (inv : XElem)
    (sL : Lookup SensorInfo) (dL : Lookup DataloggerInfo)
    (hv : validHierarchy inv = true) :
    unified_data inv sL dL = spec_walker_records inv sL dL ∧
    (unified_data inv sL dL).length = (spec_stream_elements inv).length := by
  simp only [validHierarchy, Bool.and_eq_true, List.all_eq_true] at hv
  obtain ⟨hnet, hrest⟩ := hv
  have hmain : unified_data inv sL dL = spec_walker_records inv sL dL := by
    unfold unified_data process_networks spec_walker_records
    rw [descWithTag_eq_filterTag hnet, filterMap_flatMap_my]
    apply flatMap_congr_mem
    intro nw hnw
    obtain ⟨hstn, hlocs⟩ := hrest nw hnw
    unfold process_station
    rw [descWithTag_eq_filterTag hstn, filterMap_flatMap_my]
    apply flatMap_congr_mem
    intro st hst
    unfold process_location
    rw [descWithTag_eq_filterTag (hlocs st hst), filterMap_flatMap_my]
    apply flatMap_congr_mem
    intro loc hloc
    simp only [process_stream]
    exact filterMap_fst_mk _ _
  exact ⟨hmain, by rw [hmain]; exact spec_walker_records_length inv sL dL⟩

/-- A small valid inventory: one network, one station, one sensor
location, two streams. -/
def exInvC1 : XElem :=
  .mk "Inventory" [] none
    [.mk "network" [("code", "NZ")] none
      [.mk "station" [("code", "WEL")] none
        [.mk "sensorLocation" [("code", "10")] none
          [.mk "stream" [("code", "HHZ")] none [],
           .mk "stream" [("code", "HHN")] none []]]]]

/-- Witness for C1 at a concrete valid document. -/
theorem c1_witness :
    validHierarchy exInvC1 = true ∧
    (unified_data exInvC1 [] [] = spec_walker_records exInvC1 [] [] ∧
     (unified_data exInvC1 [] []).length = (spec_stream_elements exInvC1).length) :=
  ⟨by decide, c1_one_record_per_stream exInvC1 [] [] (by decide)⟩

/-! ## Claim C2 -/

/-- C2: in the final projected table, the effective sensor
(resp. datalogger) serial number of every record is the stream-level
value when present and non-empty, otherwise the equipment-level value
(and hence empty when both are empty); the two intermediate per-level
serial-number columns are dropped from the final column set while the
coalesced columns are present. -/
theorem c2_serial_coalescing (r : StreamData) :
    sensor_serial_number r =
      (if blank r.sensor_serial_number_stream ≠ "" then
        blank r.sensor_serial_number_stream
      else blank (r.sensorInfo.bind SensorInfo.sensor_serial_number_equipment)) ∧
    datalogger_serial_number r =
      (if blank r.datalogger_serial_number_stream ≠ "" then
        blank r.datalogger_serial_number_stream
      else blank (r.dataloggerInfo.bind DataloggerInfo.datalogger_serial_number_equipment)) ∧
    "sensor_serial_number_stream" ∉ exported_columns ∧
    "sensor_serial_number_equipment" ∉ exported_columns ∧
    "datalogger_serial_number_stream" ∉ exported_columns ∧
    "datalogger_serial_number_equipment" ∉ exported_columns ∧
    "sensor_serial_number" ∈ exported_columns ∧
    "datalogger_serial_number" ∈ exported_columns := by
  refine ⟨?_, ?_, by decide, by decide, by decide, by decide, by decide, by decide⟩
  · unfold sensor_serial_number pyOr
    by_cases h : blank r.sensor_serial_number_stream = "" <;> simp [h]
  · unfold datalogger_serial_number pyOr
    by_cases h : blank r.datalogger_serial_number_stream = "" <;> simp [h]

/-! ## Claim C3 -/

/-- A document with ten streams in which stream #5 (index 4) carries a
non-numeric depth text. -/
def exInvC3 : XElem :=
  .mk "Inventory" [] none
    [.mk "network" [("code", "NZ")] none
      [.mk "station" [("code", "WEL")] none
        [.mk "sensorLocation" [("code", "10")] none
          ((List.range 10).map (fun i =>
            .mk "stream" [("code", "C" ++ natStr i)] none
              [.mk "depth" [] (some (if i = 4 then "12.xyz" else "10.0")) []]))]]]

/-- Counterexample for C3: on the claim's own scenario the pass yields
ten resolved records, not nine, and no resolution error is reported —
`_process_stream` stores `depth` as raw text and never parses it, so a
non-numeric depth cannot fail a stream. -/
theorem c3_counterexample :
    (unified_data exInvC3 [] []).length = 10 ∧
    ¬ (unified_data exInvC3 [] []).length = 9 ∧
    stream_errors exInvC3 [] [] = [] := by
  refine ⟨by decide, by decide, by decide⟩

/-- C3 as amended: the ten-stream document with a non-numeric depth on
stream #5 yields ten resolved records — the non-numeric depth is
carried through as uninterpreted text on record #5 — and no resolution
error; the per-stream exception guard means a failure in one stream
could not abort the others, but no such failure arises here. -/
theorem c3_amended_ten_records :
    (unified_data exInvC3 [] []).length = 10 ∧
    ((unified_data exInvC3 [] []).map StreamData.depth) =
      [some "10.0", some "10.0", some "10.0", some "10.0", some "12.xyz",
       some "10.0", some "10.0", some "10.0", some "10.0", some "10.0"] ∧
    stream_errors exInvC3 [] [] = [] := by
  refine ⟨by decide, by decide, by decide⟩

/-! ## Claim C4 -/

/-- A parsed document whose root has no `Inventory` child. -/
def exRootC4 : XElem :=
  .mk "seiscomp" [] none [.mk "Config" [] none []]

/-- Counterexample for C4: on a document without the required
`Inventory` container the `try` body does raise a structural error, but
`parse_inventory` catches every exception and returns normally with the
message merely printed — the error does not propagate to the caller. -/
theorem c4_counterexample :
    parse_inventory_body exRootC4 =
      Except.error "No Inventory element found in XML" ∧
    parse_inventory exRootC4 =
      (emptyAState, ["Error parsing inventory: No Inventory element found in XML"]) := by
  exact ⟨rfl, rfl⟩

/-- C4 as amended: when the loaded document lacks the required root
Inventory container, the load reports the structural error and halts
before any lookup-building or stream resolution begins — the resulting
state is the empty state — but the error is caught inside the load
(printed) and the operation returns normally to the caller instead of
propagating. -/
theorem c4_amended_swallowed (root : XElem)
    (h : findTag "Inventory" root.children = none) :
    parse_inventory root =
      (emptyAState, ["Error parsing inventory: No Inventory element found in XML"]) := by
  unfold parse_inventory
  rw [h]

/-- Witness for the amended C4 at a concrete document. -/
theorem c4_witness :
    findTag "Inventory" (XElem.children (.mk "seiscomp" [] none [])) = none ∧
    parse_inventory (.mk "seiscomp" [] none []) =
      (emptyAState, ["Error parsing inventory: No Inventory element found in XML"]) :=
  ⟨rfl, c4_amended_swallowed (.mk "seiscomp" [] none []) rfl⟩

/-! ## Claim C5 -/

/-- The failing input for C5: a stream node whose `code` is `HHZ` and a
commit whose every form field is empty. -/
def exStreamC5 : XElem :=
  .mk "stream" [("code", "HHZ")] none []

/-- The all-empty stream form. -/
def emptyStreamFieldsC5 : StreamFields :=
  ⟨"", "", "", "", "", "", "", "", "", "", "", "", ""⟩

/-- The station node and all-empty station form for the contrast case. -/
def exStationC5 : XElem :=
  .mk "station" [("code", "ANMO")] none []

/-- The all-empty station form. -/
def emptyStationFieldsC5 : StationFields :=
  ⟨"", "", "", "", "", ""⟩

/-- C5 fails on the code: `update_stream` assigns the `code` attribute
unconditionally, so committing an empty stream code blanks the required
attribute (it becomes the empty string), while `update_station` guards
the assignment and leaves the station code unchanged. -/
theorem c5_stream_code_blanked :
    getAttr exStreamC5 "code" = some "HHZ" ∧
    getAttr (update_stream exStreamC5 emptyStreamFieldsC5) "code" = some "" ∧
    getAttr (update_station exStationC5 emptyStationFieldsC5) "code" = some "ANMO" :=
  ⟨rfl, rfl, rfl⟩

/-! ### Mutation-engine lemmas -/

theorem XElem.mk_eta (e : XElem) :
    XElem.mk e.tag e.attrs e.text e.children = e := by
  cases e
  rfl

theorem setText_tag (e : XElem) (v : String) : (setText e v).tag = e.tag := by
  cases e
  rfl

theorem setText_text (e : XElem) (v : String) : (setText e v).text = some v := by
  cases e
  rfl

theorem setText_eq_self {e : XElem} {v : String} (h : e.text = some v) :
    setText e v = e := by
  cases e with
  | mk t a x c =>
    simp only [XElem.text] at h
    simp [setText, h]

theorem countTag_eq_zero_findTag {t : String} {l : List XElem}
    (h : countTag t l = 0) : findTag t l = none := by
  induction l with
  | nil => rfl
  | cons e es ih =>
    by_cases he : e.tag = t
    · simp [countTag, he] at h
    · simp only [countTag, if_neg he] at h
      simpa [findTag, he] using ih (by omega)

theorem removeFirst_eq_self {t : String} {l : List XElem}
    (h : findTag t l = none) : removeFirst t l = l := by
  induction l with
  | nil => rfl
  | cons e es ih =>
    by_cases he : e.tag = t
    · simp [findTag, he] at h
    · simp only [findTag, if_neg he] at h
      simp [removeFirst, he, ih h]

theorem findTag_removeFirst_self {t : String} {l : List XElem}
    (h : countTag t l ≤ 1) : findTag t (removeFirst t l) = none := by
  induction l with
  | nil => rfl
  | cons e es ih =>
    by_cases he : e.tag = t
    · simp only [countTag, if_pos he] at h
      simp only [removeFirst, if_pos he]
      exact countTag_eq_zero_findTag (by omega)
    · simp only [countTag, if_neg he] at h
      simp only [removeFirst, if_neg he, findTag, if_neg he]
      exact ih (by omega)

theorem findTag_append_of_none {t : String} {l : List XElem} (l2 : List XElem)
    (h : findTag t l = none) : findTag t (l ++ l2) = findTag t l2 := by
  induction l with
  | nil => rfl
  | cons e es ih =>
    by_cases he : e.tag = t
    · simp [findTag, he] at h
    · simp only [findTag, if_neg he] at h
      simpa [findTag, he] using ih h

theorem findTag_append_of_some {t : String} {l : List XElem} {x : XElem}
    (l2 : List XElem) (h : findTag t l = some x) :
    findTag t (l ++ l2) = some x := by
  induction l with
  | nil => simp [findTag] at h
  | cons e es ih =>
    by_cases he : e.tag = t
    · simp only [findTag, if_pos he] at h
      simp [findTag, he, h]
    · simp only [findTag, if_neg he] at h
      simpa [findTag, he] using ih h

theorem findTag_setFirstText_self {t v : String} {l : List XElem} {x : XElem}
    (h : findTag t l = some x) :
    findTag t (setFirstText t v l) = some (setText x v) := by
  induction l with
  | nil => simp [findTag] at h
  | cons e es ih =>
    by_cases he : e.tag = t
    · simp only [findTag, if_pos he] at h
      obtain rfl := Option.some_injective _ h
      simp [setFirstText, he, findTag, setText_tag]
    · simp only [findTag, if_neg he] at h
      simpa [setFirstText, he, findTag] using ih h

theorem setFirstText_eq_self {t v : String} {l : List XElem} {x : XElem}
    (h : findTag t l = some x) (hx : x.text = some v) :
    setFirstText t v l = l := by
  induction l with
  | nil => simp [findTag] at h
  | cons e es ih =>
    by_cases he : e.tag = t
    · simp only [findTag, if_pos he] at h
      obtain rfl := Option.some_injective _ h
      simp [setFirstText, he, setText_eq_self hx]
    · simp only [findTag, if_neg he] at h
      simp [setFirstText, he, ih h]

theorem findTag_removeFirst_other {t t' : String} {l : List XElem}
    (h : t' ≠ t) : findTag t' (removeFirst t l) = findTag t' l := by
  induction l with
  | nil => rfl
  | cons e es ih =>
    by_cases he : e.tag = t
    · have hne : ¬ e.tag = t' := by rw [he]; exact fun hc => h hc.symm
      simp [removeFirst, he, findTag, hne, Ne.symm h]
    · by_cases h2 : e.tag = t' <;> simp [removeFirst, he, findTag, h2, ih, h, Ne.symm h]

theorem findTag_setFirstText_other {t t' v : String} {l : List XElem}
    (h : t' ≠ t) : findTag t' (setFirstText t v l) = findTag t' l := by
  induction l with
  | nil => rfl
  | cons e es ih =>
    by_cases he : e.tag = t
    · have hne : ¬ e.tag = t' := by rw [he]; exact fun hc => h hc.symm
      simp [setFirstText, he, findTag, setText_tag, hne, Ne.symm h]
    · by_cases h2 : e.tag = t' <;> simp [setFirstText, he, findTag, h2, ih, h, Ne.symm h]

theorem countTag_append (t : String) (l l2 : List XElem) :
    countTag t (l ++ l2) = countTag t l + countTag t l2 := by
  induction l with
  | nil => simp [countTag]
  | cons e es ih => simp [countTag, ih]; omega

theorem countTag_removeFirst_other {t t' : String} {l : List XElem}
    (h : t' ≠ t) : countTag t' (removeFirst t l) = countTag t' l := by
  induction l with
  | nil => rfl
  | cons e es ih =>
    by_cases he : e.tag = t
    · have hne : ¬ e.tag = t' := by rw [he]; exact fun hc => h hc.symm
      simp [removeFirst, he, countTag, hne, Ne.symm h]
    · simp [removeFirst, he, countTag, ih]

theorem countTag_setFirstText (t t' v : String) (l : List XElem) :
    countTag t' (setFirstText t v l) = countTag t' l := by
  induction l with
  | nil => rfl
  | cons e es ih =>
    by_cases he : e.tag = t
    · simp [setFirstText, he, countTag, setText_tag]
    · simp [setFirstText, he, countTag, ih]

theorem updC_findTag_other {t t' v : String} {l : List XElem} (h : t' ≠ t) :
    findTag t' (updC t v l) = findTag t' l := by
  unfold updC
  split
  · exact findTag_removeFirst_other h
  · split
    · exact findTag_setFirstText_other h
    · rename_i hnone
      cases hft : findTag t' l with
      | none =>
        rw [findTag_append_of_none _ hft]
        simp [findTag, XElem.tag, Ne.symm h]
      | some x => rw [findTag_append_of_some _ hft]

theorem updC_countTag_other {t t' v : String} {l : List XElem} (h : t' ≠ t) :
    countTag t' (updC t v l) = countTag t' l := by
  unfold updC
  split
  · exact countTag_removeFirst_other h
  · split
    · exact countTag_setFirstText t t' v l
    · rw [countTag_append]
      simp [countTag, XElem.tag, Ne.symm h]

/-- The state of one tag after its commit: an empty value leaves the tag
absent, a non-empty value leaves a first element with that text. -/
def Settled (t v : String) (l : List XElem) : Prop :=
  if v = "" then findTag t l = none
  else ∃ x, findTag t l = some x ∧ x.text = some v

theorem updC_settles {t v : String} {l : List XElem}
    (h : countTag t l ≤ 1) : Settled t v (updC t v l) := by
  unfold Settled updC
  by_cases hv : v = ""
  · simp only [if_pos hv]
    exact findTag_removeFirst_self h
  · simp only [if_neg hv]
    cases hft : findTag t l with
    | some x =>
      exact ⟨setText x v, findTag_setFirstText_self hft, setText_text x v⟩
    | none =>
      refine ⟨XElem.mk t [] (some v) [], ?_, rfl⟩
      rw [findTag_append_of_none _ hft]
      simp [findTag, XElem.tag]

theorem settled_updC_other {t t' v v' : String} {l : List XElem}
    (h : t ≠ t') (hs : Settled t v l) : Settled t v (updC t' v' l) := by
  unfold Settled at hs ⊢
  by_cases hv : v = ""
  · simp only [if_pos hv] at hs ⊢
    rw [updC_findTag_other h]
    exact hs
  · simp only [if_neg hv] at hs ⊢
    obtain ⟨x, hx, hxt⟩ := hs
    exact ⟨x, by rw [updC_findTag_other h]; exact hx, hxt⟩

theorem updC_of_settled {t v : String} {l : List XElem}
    (hs : Settled t v l) : updC t v l = l := by
  unfold Settled at hs
  unfold updC
  by_cases hv : v = ""
  · simp only [if_pos hv] at hs ⊢
    exact removeFirst_eq_self hs
  · simp only [if_neg hv] at hs ⊢
    obtain ⟨x, hx, hxt⟩ := hs
    rw [hx]
    exact setFirstText_eq_self hx hxt

theorem applyUpds_nil (l : List XElem) : applyUpds [] l = l := rfl

theorem applyUpds_cons (p : String × String) (ps : List (String × String))
    (l : List XElem) : applyUpds (p :: ps) l = applyUpds ps (updC p.1 p.2 l) := rfl

theorem settled_applyUpds {t v : String} {ps : List (String × String)}
    {l : List XElem} (hni : t ∉ ps.map Prod.fst) (hs : Settled t v l) :
    Settled t v (applyUpds ps l) := by
  induction ps generalizing l with
  | nil => exact hs
  | cons p ps ih =>
    simp only [List.map_cons, List.mem_cons] at hni
    push_neg at hni
    rw [applyUpds_cons]
    exact ih hni.2 (settled_updC_other hni.1 hs)

theorem all_settled {ps : List (String × String)} {l : List XElem}
    (hnd : (ps.map Prod.fst).Nodup) (hct : ∀ p ∈ ps, countTag p.1 l ≤ 1) :
    ∀ p ∈ ps, Settled p.1 p.2 (applyUpds ps l) := by
  induction ps generalizing l with
  | nil => intro p hp; cases hp
  | cons q ps ih =>
    simp only [List.map_cons, List.nodup_cons] at hnd
    intro p hp
    rw [applyUpds_cons]
    rcases List.mem_cons.mp hp with rfl | hp2
    · exact settled_applyUpds hnd.1 (updC_settles (hct p (by simp)))
    · apply ih hnd.2 _ p hp2
      intro p2 hp22
      have hne : p2.1 ≠ q.1 := by
        intro hc
        apply hnd.1
        rw [← hc]
        exact List.mem_map_of_mem Prod.fst hp22
      rw [updC_countTag_other hne]
      exact hct p2 (by simp [hp22])

theorem applyUpds_of_settled {ps : List (String × String)} {l : List XElem}
    (hs : ∀ p ∈ ps, Settled p.1 p.2 l) : applyUpds ps l = l := by
  induction ps with
  | nil => rfl
  | cons p ps ih =>
    rw [applyUpds_cons, updC_of_settled (hs p (by simp))]
    exact ih (fun q hq => hs q (by simp [hq]))

/-- Committing the same (tag, value) list twice is the same as once,
provided the node's child tags were unique to begin with. -/
theorem applyUpds_idem {ps : List (String × String)} {l : List XElem}
    (hnd : (ps.map Prod.fst).Nodup) (hct : ∀ p ∈ ps, countTag p.1 l ≤ 1) :
    applyUpds ps (applyUpds ps l) = applyUpds ps l :=
  applyUpds_of_settled (all_settled hnd hct)

theorem assocSet_idem (k v : String) (l : List (String × String)) :
    assocSet k v (assocSet k v l) = assocSet k v l := by
  induction l with
  | nil => simp [assocSet]
  | cons p ps ih =>
    by_cases h : p.1 = k
    · simp [assocSet, h]
    · simp [assocSet, h, ih]

theorem countTag_eq_count_map (t : String) (l : List XElem) :
    countTag t l = (l.map XElem.tag).count t := by
  induction l with
  | nil => rfl
  | cons e es ih =>
    by_cases h : e.tag = t
    · simp [countTag, List.count_cons, ih, h]
      omega
    · simp [countTag, List.count_cons, ih, h]

theorem countTag_le_one_of_nodup {l : List XElem}
    (h : (l.map XElem.tag).Nodup) (t : String) : countTag t l ≤ 1 := by
  rw [countTag_eq_count_map]
  exact List.nodup_iff_count_le_one.mp h t

/-! ## Claim C6 -/

/-- An empty commit on a node without the element is a no-op. -/
theorem update_element_text_absent {e : XElem} {t : String}
    (h : findTag t e.children = none) : update_element_text e t "" = e := by
  unfold update_element_text updC
  rw [if_pos rfl, removeFirst_eq_self h, XElem.mk_eta]

/-- C6: for a node whose children carry the tag at most once, committing
an empty value removes the child element (the tag is absent afterwards);
committing an empty value when the element is already absent leaves the
document unchanged — both on an arbitrary node with the tag absent and
again right after the removal; and committing a non-empty value
afterwards recreates the element with exactly that text. -/
theorem c6_element_presence (e : XElem) (t v : String) (hv : v ≠ "")
    (hct : countTag t e.children ≤ 1) :
    (findTag t e.children = none → update_element_text e t "" = e) ∧
    findTag t (update_element_text e t "").children = none ∧
    update_element_text (update_element_text e t "") t "" =
      update_element_text e t "" ∧
    findTag t (update_element_text (update_element_text e t "") t v).children =
      some (XElem.mk t [] (some v) []) := by
  have habsent : findTag t (update_element_text e t "").children = none := by
    show findTag t (updC t "" e.children) = none
    unfold updC
    rw [if_pos rfl]
    exact findTag_removeFirst_self hct
  refine ⟨fun h => update_element_text_absent h, habsent,
    update_element_text_absent habsent, ?_⟩
  show findTag t (updC t v (update_element_text e t "").children) = _
  unfold updC
  rw [if_neg hv, habsent, findTag_append_of_none _ habsent]
  simp [findTag, XElem.tag]

/-- Witness for C6 at a concrete node (one `azimuth` child, text `0`). -/
theorem c6_witness :
    ("90" ≠ "" ∧
      countTag "azimuth"
        (XElem.children (.mk "stream" [] none [.mk "azimuth" [] (some "0") []])) ≤ 1) ∧
    ((findTag "azimuth"
        (XElem.children (.mk "stream" [] none [.mk "azimuth" [] (some "0") []])) = none →
      update_element_text (.mk "stream" [] none [.mk "azimuth" [] (some "0") []])
        "azimuth" "" = .mk "stream" [] none [.mk "azimuth" [] (some "0") []]) ∧
     findTag "azimuth"
       (update_element_text (.mk "stream" [] none [.mk "azimuth" [] (some "0") []])
         "azimuth" "").children = none ∧
     update_element_text
       (update_element_text (.mk "stream" [] none [.mk "azimuth" [] (some "0") []])
         "azimuth" "") "azimuth" "" =
       update_element_text (.mk "stream" [] none [.mk "azimuth" [] (some "0") []])
         "azimuth" "" ∧
     findTag "azimuth"
       (update_element_text
         (update_element_text (.mk "stream" [] none [.mk "azimuth" [] (some "0") []])
           "azimuth" "") "azimuth" "90").children =
       some (XElem.mk "azimuth" [] (some "90") [])) :=
  ⟨⟨by decide, by decide⟩,
    c6_element_presence (.mk "stream" [] none [.mk "azimuth" [] (some "0") []])
      "azimuth" "90" (by decide) (by decide)⟩

/-! ## Claim C9 -/

/-- The tags committed by `update_stream` are pairwise distinct, whether
or not the sample-rate text parses. -/
theorem streamPairs_fst_nodup (f : StreamFields) :
    ((streamPairs f).map Prod.fst).Nodup := by
  unfold streamPairs
  cases h : parsePyFloat f.sampleRate with
  | none => simp
  | some r => simp

/-- C9: for every stream node whose child tags are unique (as in the
SeisComP schema) and every set of form-field values, committing the
same values twice through `update_stream` leaves the document node in a
state identical to the state after the first commit. -/
theorem c9_update_idempotent (e : XElem) (f : StreamFields)
    (hnd : (e.children.map XElem.tag).Nodup) :
    update_stream (update_stream e f) f = update_stream e f := by
  cases e with
  | mk t a x c =>
    simp only [XElem.children] at hnd
    unfold update_stream
    simp only [XElem.tag, XElem.attrs, XElem.text, XElem.children]
    rw [assocSet_idem]
    rw [applyUpds_idem (streamPairs_fst_nodup f)
      (fun p _ => countTag_le_one_of_nodup hnd p.1)]

/-- Witness for C9 at a concrete stream node and form. -/
theorem c9_witness :
    ((XElem.children
        (.mk "stream" [("code", "HHZ")] none
          [.mk "depth" [] (some "10") [], .mk "gain" [] (some "2.0") []])).map
      XElem.tag).Nodup ∧
    update_stream
      (update_stream
        (.mk "stream" [("code", "HHZ")] none
          [.mk "depth" [] (some "10") [], .mk "gain" [] (some "2.0") []])
        ⟨"BHZ", "2020-01-01", "", "5", "", "", "1.5", "50.0", "", "", "sn1", "sn2", ""⟩)
      ⟨"BHZ", "2020-01-01", "", "5", "", "", "1.5", "50.0", "", "", "sn1", "sn2", ""⟩ =
    update_stream
      (.mk "stream" [("code", "HHZ")] none
        [.mk "depth" [] (some "10") [], .mk "gain" [] (some "2.0") []])
      ⟨"BHZ", "2020-01-01", "", "5", "", "", "1.5", "50.0", "", "", "sn1", "sn2", ""⟩ :=
  ⟨by decide,
    c9_update_idempotent
      (.mk "stream" [("code", "HHZ")] none
        [.mk "depth" [] (some "10") [], .mk "gain" [] (some "2.0") []])
      ⟨"BHZ", "2020-01-01", "", "5", "", "", "1.5", "50.0", "", "", "sn1", "sn2", ""⟩
      (by decide)⟩

/-! ## Claim C10 -/

/-- The children whose tag belongs to a given tag set, in order. -/
def filterTags (ts : List String) : List XElem → List XElem
  | [] => []
  | e :: es => if e.tag ∈ ts then e :: filterTags ts es else filterTags ts es

theorem filterTags_append (ts : List String) (l l2 : List XElem) :
    filterTags ts (l ++ l2) = filterTags ts l ++ filterTags ts l2 := by
  induction l with
  | nil => rfl
  | cons e es ih =>
    by_cases h : e.tag ∈ ts <;> simp [filterTags, h, ih]

theorem filterTags_removeFirst {t : String} {ts : List String}
    (h : t ∉ ts) (l : List XElem) :
    filterTags ts (removeFirst t l) = filterTags ts l := by
  induction l with
  | nil => rfl
  | cons e es ih =>
    by_cases he : e.tag = t
    · have : e.tag ∉ ts := by rw [he]; exact h
      simp [removeFirst, he, filterTags, this, h]
    · by_cases h2 : e.tag ∈ ts <;> simp [removeFirst, he, filterTags, h2, ih]

theorem filterTags_setFirstText {t : String} {ts : List String}
    (h : t ∉ ts) (v : String) (l : List XElem) :
    filterTags ts (setFirstText t v l) = filterTags ts l := by
  induction l with
  | nil => rfl
  | cons e es ih =>
    by_cases he : e.tag = t
    · have h1 : e.tag ∉ ts := by rw [he]; exact h
      have h2 : (setText e v).tag ∉ ts := by rw [setText_tag, he]; exact h
      simp [setFirstText, he, filterTags, h1, h2, h]
    · by_cases h2 : e.tag ∈ ts <;> simp [setFirstText, he, filterTags, h2, ih]

theorem filterTags_updC {t : String} {ts : List String}
    (h : t ∉ ts) (v : String) (l : List XElem) :
    filterTags ts (updC t v l) = filterTags ts l := by
  unfold updC
  split
  · exact filterTags_removeFirst h l
  · split
    · exact filterTags_setFirstText h v l
    · rw [filterTags_append]
      simp [filterTags, XElem.tag, h]

theorem filterTags_applyUpds {ts : List String} {ps : List (String × String)}
    (h : ∀ p ∈ ps, p.1 ∉ ts) (l : List XElem) :
    filterTags ts (applyUpds ps l) = filterTags ts l := by
  induction ps generalizing l with
  | nil => rfl
  | cons p ps ih =>
    rw [applyUpds_cons, ih (fun q hq => h q (by simp [hq])),
      filterTags_updC (h p (by simp)) p.2 l]

/-- C10: the sample-rate field of a stream commit follows its own
empty-value policy.  When the committed text does not parse as a float
(the empty string included), the `sampleRateNumerator` and
`sampleRateDenominator` children are left exactly as they were — not
removed, and no error is reported (`except (ValueError, TypeError):
pass`).  When it parses as a float `r`, the numerator is written as the
decimal string of the truncation of `r` and the denominator as `"1"`;
in particular `0.5` is stored as numerator `0`. -/
theorem c10_sample_rate_policy (e : XElem) (f : StreamFields)
    (hnd : (e.children.map XElem.tag).Nodup) :
    (parsePyFloat f.sampleRate = none →
      filterTags ["sampleRateNumerator", "sampleRateDenominator"]
          (update_stream e f).children =
        filterTags ["sampleRateNumerator", "sampleRateDenominator"] e.children) ∧
    (∀ r : ℚ, parsePyFloat f.sampleRate = some r →
      (∃ x, findTag "sampleRateNumerator" (update_stream e f).children = some x ∧
        x.text = some (pyIntStr (qtrunc r))) ∧
      (∃ y, findTag "sampleRateDenominator" (update_stream e f).children = some y ∧
        y.text = some "1")) ∧
    parsePyFloat "0.5" = some (1 / 2 : ℚ) ∧
    pyIntStr (qtrunc (1 / 2 : ℚ)) = "0" ∧
    parsePyFloat "" = none := by
  cases e with
  | mk tg a x c =>
    simp only [XElem.children] at hnd
    refine ⟨?_, ?_, ?_, ?_, by decide⟩
    · intro hparse
      show filterTags _ (applyUpds (streamPairs f) c) = filterTags _ c
      apply filterTags_applyUpds
      intro p hp
      have hp1 : p.1 ∈ (streamPairs f).map Prod.fst :=
        List.mem_map_of_mem Prod.fst hp
      rw [show (streamPairs f).map Prod.fst =
          ["start", "end", "depth", "azimuth", "dip", "gain", "gainFrequency",
           "gainUnit", "dataloggerSerialNumber", "sensorSerialNumber", "flags"] from by
        simp [streamPairs, hparse]] at hp1
      simp only [List.mem_cons, List.not_mem_nil, or_false] at hp1
      rcases hp1 with h1 | h1 | h1 | h1 | h1 | h1 | h1 | h1 | h1 | h1 | h1 <;>
        rw [h1] <;> decide
    · intro r hparse
      have hsettled := all_settled (l := c) (streamPairs_fst_nodup f)
        (fun p _ => countTag_le_one_of_nodup hnd p.1)
      have hnum : ("sampleRateNumerator", pyIntStr (qtrunc r)) ∈ streamPairs f := by
        simp [streamPairs, hparse]
      have hden : ("sampleRateDenominator", "1") ∈ streamPairs f := by
        simp [streamPairs, hparse]
      have h1 := hsettled _ hnum
      have h2 := hsettled _ hden
      unfold Settled at h1 h2
      rw [if_neg (pyIntStr_ne_empty (qtrunc r))] at h1
      rw [if_neg (by decide : ¬ ("1" : String) = "")] at h2
      exact ⟨h1, h2⟩
    · simp [parsePyFloat, parseUnsignedFloat, parseMantissa, digitsToNat, isPySpace]
      norm_num
    · have hq : qtrunc (1 / 2 : ℚ) = 0 := by
        have h1 : (1 / 2 : ℚ).num = 1 := by norm_num
        have h2 : (1 / 2 : ℚ).den = 2 := by norm_num
        unfold qtrunc
        rw [h1, h2]
        decide
      rw [hq]
      decide

/-- Witness for C10 at a concrete node and form (sample rate `0.5`). -/
theorem c10_witness :
    ((XElem.children
        (.mk "stream" [] none
          [.mk "sampleRateNumerator" [] (some "20") [],
           .mk "sampleRateDenominator" [] (some "1") []])).map XElem.tag).Nodup ∧
    ((parsePyFloat (StreamFields.sampleRate
        ⟨"HHZ", "", "", "", "", "", "", "0.5", "", "", "", "", ""⟩) = none →
      filterTags ["sampleRateNumerator", "sampleRateDenominator"]
          (update_stream
            (.mk "stream" [] none
              [.mk "sampleRateNumerator" [] (some "20") [],
               .mk "sampleRateDenominator" [] (some "1") []])
            ⟨"HHZ", "", "", "", "", "", "", "0.5", "", "", "", "", ""⟩).children =
        filterTags ["sampleRateNumerator", "sampleRateDenominator"]
          (XElem.children
            (.mk "stream" [] none
              [.mk "sampleRateNumerator" [] (some "20") [],
               .mk "sampleRateDenominator" [] (some "1") []]))) ∧
     (∀ r : ℚ, parsePyFloat (StreamFields.sampleRate
          ⟨"HHZ", "", "", "", "", "", "", "0.5", "", "", "", "", ""⟩) = some r →
       (∃ x, findTag "sampleRateNumerator"
          (update_stream
            (.mk "stream" [] none
              [.mk "sampleRateNumerator" [] (some "20") [],
               .mk "sampleRateDenominator" [] (some "1") []])
            ⟨"HHZ", "", "", "", "", "", "", "0.5", "", "", "", "", ""⟩).children = some x ∧
         x.text = some (pyIntStr (qtrunc r))) ∧
       (∃ y, findTag "sampleRateDenominator"
          (update_stream
            (.mk "stream" [] none
              [.mk "sampleRateNumerator" [] (some "20") [],
               .mk "sampleRateDenominator" [] (some "1") []])
            ⟨"HHZ", "", "", "", "", "", "", "0.5", "", "", "", "", ""⟩).children = some y ∧
         y.text = some "1")) ∧
     parsePyFloat "0.5" = some (1 / 2 : ℚ) ∧
     pyIntStr (qtrunc (1 / 2 : ℚ)) = "0" ∧
     parsePyFloat "" = none) :=
  ⟨by decide,
    c10_sample_rate_policy
      (.mk "stream" [] none
        [.mk "sampleRateNumerator" [] (some "20") [],
         .mk "sampleRateDenominator" [] (some "1") []])
      ⟨"HHZ", "", "", "", "", "", "", "0.5", "", "", "", "", ""⟩
      (by decide)⟩

/-! ## Claim C7 -/

theorem assocGet_set_same (k v : String) (l : List (String × String)) :
    assocGet k (assocSet k v l) = some v := by
  induction l with
  | nil => simp [assocSet, assocGet]
  | cons p ps ih =>
    by_cases h : p.1 = k
    · simp [assocSet, h, assocGet]
    · simp [assocSet, h, assocGet, ih]

theorem assocGet_set_other {k' k : String} (h : k' ≠ k) (v : String)
    (l : List (String × String)) :
    assocGet k' (assocSet k v l) = assocGet k' l := by
  induction l with
  | nil => simp [assocSet, assocGet, Ne.symm h]
  | cons p ps ih =>
    by_cases hp : p.1 = k
    · by_cases hp2 : p.1 = k' <;>
        simp [assocSet, assocGet, hp, hp2, Ne.symm h, h]
    · by_cases hp2 : p.1 = k' <;> simp [assocSet, assocGet, hp, hp2, ih, h]

/-- C7: when the write fails during save, the original content is still
available under the original file name (restored from the rename-based
backup), and the session keeps `unsaved_changes = true` — it stays
Dirty instead of transitioning to Loaded. -/
theorem c7_save_failure (fs : FS) (f : String) (doc : XElem)
    (content partialContent : String)
    (horig : assocGet f fs = some content)
    (hb : backupName f ≠ f) :
    assocGet f
        (save_xml fs ⟨some f, some doc, true⟩ false partialContent).1 =
      some content ∧
    (save_xml fs ⟨some f, some doc, true⟩ false partialContent).2.unsaved_changes
      = true := by
  have hrename : fsRename fs f (backupName f) =
      some (assocSet (backupName f) content (assocDel f fs)) := by
    unfold fsRename
    rw [horig]
  have hget2 : assocGet (backupName f)
      (assocSet f partialContent
        (assocSet (backupName f) content (assocDel f fs))) = some content := by
    rw [assocGet_set_other hb, assocGet_set_same]
  have hrename2 : fsRename
      (assocSet f partialContent
        (assocSet (backupName f) content (assocDel f fs)))
      (backupName f) f =
      some (assocSet f content
        (assocDel (backupName f)
          (assocSet f partialContent
            (assocSet (backupName f) content (assocDel f fs))))) := by
    unfold fsRename
    rw [hget2]
  unfold save_xml
  simp only [hrename, hget2, hrename2, Option.isSome_some, if_true,
    Option.getD_some, Bool.false_eq_true, if_false]
  exact ⟨assocGet_set_same f content _, trivial⟩

/-- Witness for C7 at a concrete filesystem and session. -/
theorem c7_witness :
    (assocGet "inv.xml" [("inv.xml", "OLD")] = some "OLD" ∧
      backupName "inv.xml" ≠ "inv.xml") ∧
    (assocGet "inv.xml"
        (save_xml [("inv.xml", "OLD")]
          ⟨some "inv.xml", some (.mk "seiscomp" [] none []), true⟩
          false "PARTIAL").1 = some "OLD" ∧
     (save_xml [("inv.xml", "OLD")]
        ⟨some "inv.xml", some (.mk "seiscomp" [] none []), true⟩
        false "PARTIAL").2.unsaved_changes = true) :=
  ⟨⟨rfl, by decide⟩,
    c7_save_failure [("inv.xml", "OLD")] "inv.xml" (.mk "seiscomp" [] none [])
      "OLD" "PARTIAL" rfl (by decide)⟩

/-! ## Claim C8 -/

/-- A stream with numerator `100`, denominator `1`. -/
def exSR100 : XElem :=
  .mk "stream" [] none
    [.mk "sampleRateNumerator" [] (some "100") [],
     .mk "sampleRateDenominator" [] (some "1") []]

/-- A stream with denominator `0`. -/
def exSRden0 : XElem :=
  .mk "stream" [] none
    [.mk "sampleRateNumerator" [] (some "100") [],
     .mk "sampleRateDenominator" [] (some "0") []]

/-- A stream with a non-numeric numerator. -/
def exSRbadNum : XElem :=
  .mk "stream" [] none
    [.mk "sampleRateNumerator" [] (some "abc") [],
     .mk "sampleRateDenominator" [] (some "1") []]

/-- A stream with a non-numeric denominator. -/
def exSRbadDen : XElem :=
  .mk "stream" [] none
    [.mk "sampleRateNumerator" [] (some "100") [],
     .mk "sampleRateDenominator" [] (some "x1") []]

/-- C8: the derived sample-rate display shows `100` for numerator `100`
and denominator `1`; a zero denominator or a non-numeric value on
either side yields an absent display (`none`) through the caught
`ValueError`/`ZeroDivisionError`, with no exception reaching the caller
(`Except.ok`). -/
theorem c8_sample_rate_display :
    displayed_sample_rate exSR100 = Except.ok (some (100 : ℚ)) ∧
    displayed_sample_rate exSRden0 = Except.ok none ∧
    displayed_sample_rate exSRbadNum = Except.ok none ∧
    displayed_sample_rate exSRbadDen = Except.ok none := by
  refine ⟨?_, rfl, rfl, rfl⟩
  have h : displayed_sample_rate exSR100 =
      Except.ok (some (((100 : ℕ) : ℚ) / ((1 : ℕ) : ℚ))) := rfl
  rw [h]
  norm_num

end SeisComp
